import Mathlib

/-!
Shallow embedding of the turf-booking service implemented in `src/app.py`.

Modelling conventions, fixed once for the whole development:

* The MongoDB document store becomes an explicit `State` record holding the four
  collections (`users`, `turf_owners`, `turfs`, `bookings`) as Lean lists in
  insertion order, plus a counter from which store-assigned ids are generated.
  `find_one` becomes `List.find?` (first match in natural order), `insert_one`
  appends, `update_one` rewrites the first matching element, `delete_one`
  removes the first matching element.
* Timestamps are absolute instants measured in integer seconds (`Int`).
  `dateutil.parser.parse` is abstracted to `parseDate`, a concrete parser that
  reads a decimal integer; the routes only depend on whether a time string
  parses and on the resulting instant, never on the concrete date grammar.
* Python numbers occurring in prices and costs are modelled as exact rationals
  (`ℚ`); the cost formula of `book_turf` is translated literally.
* `bson.ObjectId(x)` raises `bson.errors.InvalidId` unless `x` is a 24
  character hex string; this is modelled by `isValidObjectId`, and an uncaught
  exception escaping a route handler is modelled by the `Response.raised`
  constructor (Flask turns it into an HTTP 500 with no stable error payload).
* Each Flask route handler becomes a function `CurrentUser → request → State →
  Response × State`; `current_user` is the `(user_type, user_id)` pair the
  `token_required` decorator extracts from a verified token (token
  verification itself is an excluded collaborator).
* JSON request bodies become structures of `Option` fields (`none` = field
  absent); Python truthiness of `data.get(...)` values is modelled by
  `truthyS` / `truthyQ` / `truthyI` (absent, empty string and zero are falsy).
* `werkzeug.generate_password_hash` is an excluded external collaborator; a
  concrete injective stand-in is used, no claim inspects hashes.
* `created_at` fields (wall-clock timestamps) are not modelled; no claim
  mentions them.
-/

namespace TurfBooking

/-- Status field of a booking document: the string `confirmed` or `cancelled`. -/
inductive BookingStatus
  | confirmed
  | cancelled
deriving DecidableEq, Repr

/-- Boolean test for the `status == 'confirmed'` comparisons of `app.py`. -/
def BookingStatus.isConfirmed : BookingStatus → Bool
  | .confirmed => true
  | .cancelled => false

/-- A document of the `bookings` collection (fields inserted at app.py:519). -/
structure Booking where
  id : String
  user_id : String
  turf_id : String
  start_time : Int
  end_time : Int
  status : BookingStatus
  total_cost : ℚ
  notes : String
deriving DecidableEq, Repr

/-- A document of the `turfs` collection (fields inserted at app.py:648). -/
structure Turf where
  id : String
  owner_id : String
  name : String
  location : String
  size : String
  amenities : List String
  price_per_hour : ℚ
  availability : Bool
  surface_type : String
  capacity : Int
  description : String
deriving DecidableEq, Repr

/-- A document of the `users` collection (fields inserted at app.py:425). -/
structure User where
  id : String
  username : String
  email : String
  password : String
  full_name : String
  phone : String
deriving DecidableEq, Repr

/-- A document of the `turf_owners` collection (fields inserted at app.py:584). -/
structure Owner where
  id : String
  username : String
  email : String
  password : String
  name : String
  phone : String
  business_name : String
  address : String
deriving DecidableEq, Repr

/-- The document store: the four MongoDB collections in natural (insertion)
order, plus the counter from which store-assigned ids are minted. -/
structure State where
  users : List User
  turf_owners : List Owner
  turfs : List Turf
  bookings : List Booking
  counter : Nat
deriving DecidableEq, Repr

/-- The `user_type` claim of a decoded JWT token: `user` or `owner`. -/
inductive UserType
  | user
  | owner
deriving DecidableEq, Repr

/-- The `current_user = (data['user_type'], data['user_id'])` pair that the
`token_required` decorator passes to every protected route. -/
structure CurrentUser where
  user_type : UserType
  user_id : String
deriving DecidableEq, Repr

/-- Observable outcome of one route handler.  `reply` is a
`jsonify({'message': ...}), code` return; `replyCreated` additionally carries
the id of the inserted document; `replyBookings` is the `jsonify(list), 200`
return of the booking-list route; `raised` is an exception escaping the
handler uncaught (Flask reports HTTP 500, no stable application error code). -/
inductive Response
  | reply (status : Nat) (message : String)
  | replyCreated (status : Nat) (message : String) (id : String)
  | replyBookings (status : Nat) (bookings : List Booking)
  | raised (exc : String)
deriving DecidableEq, Repr

/-- Python truthiness of `data.get(field)` for a string field:
absent (`None`) and the empty string are falsy. -/
def truthyS : Option String → Bool
  | none => false
  | some v => v != ""

/-- Python truthiness of a numeric JSON field: absent and `0` are falsy. -/
def truthyQ : Option ℚ → Bool
  | none => false
  | some q => decide (q ≠ 0)

/-- Python truthiness of an integer JSON field: absent and `0` are falsy. -/
def truthyI : Option Int → Bool
  | none => false
  | some n => n != 0

/-- Numeric value of one decimal digit, or failure. -/
def digitVal (c : Char) : Option Nat :=
  if c.isDigit then some (c.toNat - Char.toNat '0') else none

/-- Decimal value of a nonempty digit string, or failure. -/
def parseNatDigits (l : List Char) : Option Nat :=
  match l with
  | [] => none
  | _ =>
    l.foldl
      (fun acc c =>
        match acc, digitVal c with
        | some n, some d => some (n * 10 + d)
        | _, _ => none)
      (some 0)

/-- Abstraction of `dateutil.parser.parse`: a time string is its decimal
number of seconds (an optional leading minus sign then digits); anything else
fails to parse. -/
def parseDate (s : String) : Option Int :=
  match s.toList with
  | '-' :: rest => (parseNatDigits rest).map (fun n => -(n : Int))
  | l => (parseNatDigits l).map (fun n => (n : Int))

/-- Hex-digit test used by `bson.ObjectId` validation. -/
def isHexDigit (c : Char) : Bool :=
  c.isDigit || (decide ('a' ≤ c) && decide (c ≤ 'f')) || (decide ('A' ≤ c) && decide (c ≤ 'F'))

/-- `bson.ObjectId(s)` succeeds exactly on 24-character hex strings; on any
other string it raises `bson.errors.InvalidId`. -/
def isValidObjectId (s : String) : Bool :=
  s.length == 24 && s.toList.all isHexDigit

/-- Store-assigned document id for the `n`-th insertion: a canonical
24-character hex string. -/
def freshId (n : Nat) : String :=
  let ds := Nat.toDigits 16 n
  String.mk (List.replicate (24 - ds.length) '0' ++ ds)

/-- Rewrite the first element satisfying `p` (MongoDB `update_one`). -/
def updateFirst (p : α → Bool) (g : α → α) : List α → List α
  | [] => []
  | a :: l => if p a then g a :: l else a :: updateFirst p g l

/-- Remove the first element satisfying `p` (MongoDB `delete_one`). -/
def deleteFirst (p : α → Bool) : List α → List α
  | [] => []
  | a :: l => if p a then l else a :: deleteFirst p l

/-- Literal translation of the three `$or` clauses of the overlap query at
app.py:506-510, evaluated against one existing booking `b` and the requested
interval `[st, en]`:
clause 1 is `b.start_time ≤ en ∧ b.start_time ≥ st`,
clause 2 is `b.end_time ≥ st ∧ b.end_time ≤ en`,
clause 3 is `b.start_time ≤ st ∧ b.end_time ≥ en`.
All bounds are inclusive (`$lte` / `$gte`). -/
def mongoOverlap (b : Booking) (st en : Int) : Bool :=
  (decide (b.start_time ≤ en) && decide (st ≤ b.start_time)) ||
  (decide (st ≤ b.end_time) && decide (b.end_time ≤ en)) ||
  (decide (b.start_time ≤ st) && decide (en ≤ b.end_time))

/-- The half-open interval test stated by the spec (section 4.1):
`existing.start < end AND existing.end > start`.  This definition follows the
spec wording, as the reference side of the refinement claim about the overlap
predicate; the code side is `mongoOverlap`. -/
def specHalfOpenOverlap (es ee st en : Int) : Bool :=
  decide (es < en) && decide (ee > st)

/-- The overlap-check phase of `book_turf` (the `find_one` at app.py:503):
first confirmed booking of the turf matching the `$or` clauses, if any. -/
def findConflict (s : State) (tid : String) (st en : Int) : Option Booking :=
  s.bookings.find? (fun b => b.turf_id == tid && b.status.isConfirmed && mongoOverlap b st en)

/-- The insert phase of `book_turf` (the `insert_one` at app.py:519). -/
def insertBooking (s : State) (uid tid : String) (st en : Int) (cost : ℚ) (nts : String) :
    State :=
  { s with
    bookings := s.bookings ++
      [{ id := freshId s.counter, user_id := uid, turf_id := tid, start_time := st,
         end_time := en, status := .confirmed, total_cost := cost, notes := nts }],
    counter := s.counter + 1 }

/-- JSON body of `POST /user/book`. -/
structure BookReq where
  turf_id : Option String
  start_time : Option String
  end_time : Option String
  notes : Option String
deriving DecidableEq, Repr

/-- Route handler `book_turf` (`POST /user/book`, app.py:473-530), translated
branch by branch: role check, missing-field check, date parsing, interval
validation, `ObjectId` conversion, turf lookup, overlap check, cost
computation, booking insertion. -/
def book_turf (cu : CurrentUser) (req : BookReq) (s : State) : Response × State :=
  if cu.user_type ≠ UserType.user then (.reply 403 "Unauthorized", s)
  else if !(truthyS req.turf_id && truthyS req.start_time && truthyS req.end_time) then
    (.reply 400 "Missing fields", s)
  else
    match parseDate (req.start_time.getD ""), parseDate (req.end_time.getD "") with
    | some st, some en =>
      if st ≥ en then (.reply 400 "End time must be after start time", s)
      else if !isValidObjectId (req.turf_id.getD "") then (.raised "bson.errors.InvalidId", s)
      else
        match s.turfs.find? (fun t => t.id == req.turf_id.getD "" && t.availability) with
        | none => (.reply 404 "Turf not found or unavailable", s)
        | some turf =>
          match findConflict s (req.turf_id.getD "") st en with
          | some _ => (.reply 409 "Time slot unavailable", s)
          | none =>
            (.replyCreated 201 "Booking created successfully" (freshId s.counter),
             insertBooking s cu.user_id (req.turf_id.getD "") st en
               (turf.price_per_hour * (((en - st : Int) : ℚ) / 3600)) (req.notes.getD ""))
    | _, _ => (.reply 400 "Invalid date format", s)

/-- Route handler `get_user_bookings` (`GET /user/bookings`, app.py:532-542):
all bookings of the requesting user in natural order; `404` when that list is
empty. -/
def get_user_bookings (cu : CurrentUser) (s : State) : Response × State :=
  if cu.user_type ≠ UserType.user then (.reply 403 "Unauthorized", s)
  else if (s.bookings.filter (fun b => b.user_id == cu.user_id)).isEmpty then
    (.reply 404 "No bookings found", s)
  else (.replyBookings 200 (s.bookings.filter (fun b => b.user_id == cu.user_id)), s)

/-- The `$set {'status': 'cancelled'}` update of `cancel_booking`. -/
def cancelStatus (b : Booking) : Booking := { b with status := .cancelled }

/-- Route handler `cancel_booking` (`DELETE /user/booking/<id>`,
app.py:544-561): role check, `ObjectId` conversion, lookup by id and
requesting user, already-cancelled check, status update of the first booking
with that id. -/
def cancel_booking (cu : CurrentUser) (id : String) (s : State) : Response × State :=
  if cu.user_type ≠ UserType.user then (.reply 403 "Unauthorized", s)
  else if !isValidObjectId id then (.raised "bson.errors.InvalidId", s)
  else
    match s.bookings.find? (fun b => b.id == id && b.user_id == cu.user_id) with
    | none => (.reply 404 "Booking not found or unauthorized", s)
    | some b =>
      if b.status = .cancelled then (.reply 400 "Booking already cancelled", s)
      else (.reply 200 "Booking cancelled successfully",
            { s with bookings := updateFirst (fun x => x.id == id) cancelStatus s.bookings })

/-- JSON body of `POST /owner/turf` and `PUT /owner/turf/<id>` (same field
set; `none` means the field is absent from the body). -/
structure TurfReq where
  name : Option String
  location : Option String
  size : Option String
  amenities : Option (List String)
  price_per_hour : Option ℚ
  availability : Option Bool
  surface_type : Option String
  capacity : Option Int
  description : Option String
deriving DecidableEq, Repr

/-- The turf document `add_turf` inserts (app.py:648-659), with the
`data.get` defaults: `amenities` defaults to `[]`, `availability` to `true`,
`description` to the empty string. -/
def mkTurf (oid : String) (req : TurfReq) (n : Nat) : Turf :=
  { id := freshId n, owner_id := oid, name := req.name.getD "",
    location := req.location.getD "", size := req.size.getD "",
    amenities := req.amenities.getD [], price_per_hour := req.price_per_hour.getD 0,
    availability := req.availability.getD true, surface_type := req.surface_type.getD "",
    capacity := req.capacity.getD 0, description := req.description.getD "" }

/-- Route handler `add_turf` (`POST /owner/turf`, app.py:628-661): role check,
the `all([...])` truthiness check over the six required fields (note: this is
Python truthiness, so a price of `0` counts as missing, and no positivity
check is performed), then insertion. -/
def add_turf (cu : CurrentUser) (req : TurfReq) (s : State) : Response × State :=
  if cu.user_type ≠ UserType.owner then (.reply 403 "Unauthorized", s)
  else if !(truthyS req.name && truthyS req.location && truthyS req.size &&
            truthyQ req.price_per_hour && truthyS req.surface_type && truthyI req.capacity) then
    (.reply 400 "Missing fields", s)
  else
    (.replyCreated 201 "Turf added successfully" (freshId s.counter),
     { s with
       turfs := s.turfs ++ [mkTurf cu.user_id req s.counter],
       counter := s.counter + 1 })

/-- The `$set update_data` of `update_turf`: present fields overwrite, absent
fields are kept. -/
def applyTurfUpdate (req : TurfReq) (t : Turf) : Turf :=
  { t with
    name := req.name.getD t.name, location := req.location.getD t.location,
    size := req.size.getD t.size, amenities := req.amenities.getD t.amenities,
    price_per_hour := req.price_per_hour.getD t.price_per_hour,
    availability := req.availability.getD t.availability,
    surface_type := req.surface_type.getD t.surface_type,
    capacity := req.capacity.getD t.capacity,
    description := req.description.getD t.description }

/-- The `update_data` dictionary of `update_turf` is nonempty: at least one of
the nine updatable fields occurs in the request body. -/
def hasUpdateFields (req : TurfReq) : Bool :=
  req.name.isSome || req.location.isSome || req.size.isSome || req.amenities.isSome ||
  req.price_per_hour.isSome || req.availability.isSome || req.surface_type.isSome ||
  req.capacity.isSome || req.description.isSome

/-- Route handler `update_turf` (`PUT /owner/turf/<id>`, app.py:663-686):
role check, `ObjectId` conversion, lookup by id and owning owner, empty-update
check, `$set` on the first turf with that id. -/
def update_turf (cu : CurrentUser) (id : String) (req : TurfReq) (s : State) :
    Response × State :=
  if cu.user_type ≠ UserType.owner then (.reply 403 "Unauthorized", s)
  else if !isValidObjectId id then (.raised "bson.errors.InvalidId", s)
  else
    match s.turfs.find? (fun t => t.id == id && t.owner_id == cu.user_id) with
    | none => (.reply 404 "Turf not found or unauthorized", s)
    | some _ =>
      if !hasUpdateFields req then (.reply 400 "No fields to update", s)
      else (.reply 200 "Turf updated successfully",
            { s with turfs := updateFirst (fun t => t.id == id) (applyTurfUpdate req) s.turfs })

/-- Route handler `delete_turf` (`DELETE /owner/turf/<id>`, app.py:688-707):
role check, `ObjectId` conversion, lookup by id and owning owner, the
confirmed-booking guard (`find_one` at app.py:699), then `delete_one`. -/
def delete_turf (cu : CurrentUser) (id : String) (s : State) : Response × State :=
  if cu.user_type ≠ UserType.owner then (.reply 403 "Unauthorized", s)
  else if !isValidObjectId id then (.raised "bson.errors.InvalidId", s)
  else
    match s.turfs.find? (fun t => t.id == id && t.owner_id == cu.user_id) with
    | none => (.reply 404 "Turf not found or unauthorized", s)
    | some _ =>
      match s.bookings.find? (fun b => b.turf_id == id && b.status.isConfirmed) with
      | some _ => (.reply 400 "Cannot delete turf with active bookings", s)
      | none => (.reply 200 "Turf deleted successfully",
                 { s with turfs := deleteFirst (fun t => t.id == id) s.turfs })

/-- Stand-in for `werkzeug.security.generate_password_hash` (an excluded
external collaborator): injective, never inspected by any claim. -/
def generate_password_hash (p : String) : String := "pbkdf2-sha256$" ++ p

/-- JSON body of `POST /user/register`. -/
structure UserRegisterReq where
  username : Option String
  email : Option String
  password : Option String
  full_name : Option String
  phone : Option String
deriving DecidableEq, Repr

/-- Route handler `user_register` (`POST /user/register`, app.py:407-434):
missing-field check, duplicate email then duplicate username checks,
insertion with hashed password. -/
def user_register (req : UserRegisterReq) (s : State) : Response × State :=
  if !(truthyS req.username && truthyS req.email && truthyS req.password &&
       truthyS req.full_name && truthyS req.phone) then (.reply 400 "Missing fields", s)
  else if (s.users.find? (fun u => u.email == req.email.getD "")).isSome then
    (.reply 400 "Email already registered", s)
  else if (s.users.find? (fun u => u.username == req.username.getD "")).isSome then
    (.reply 400 "Username already taken", s)
  else
    (.replyCreated 201 "User created successfully" (freshId s.counter),
     { s with
       users := s.users ++
        [{ id := freshId s.counter, username := req.username.getD "",
           email := req.email.getD "",
           password := generate_password_hash (req.password.getD ""),
           full_name := req.full_name.getD "", phone := req.phone.getD "" }],
       counter := s.counter + 1 })

/-- JSON body of `POST /owner/register`. -/
structure OwnerRegisterReq where
  username : Option String
  email : Option String
  password : Option String
  name : Option String
  phone : Option String
  business_name : Option String
  address : Option String
deriving DecidableEq, Repr

/-- Route handler `owner_register` (`POST /owner/register`, app.py:564-595). -/
def owner_register (req : OwnerRegisterReq) (s : State) : Response × State :=
  if !(truthyS req.username && truthyS req.email && truthyS req.password &&
       truthyS req.name && truthyS req.phone && truthyS req.business_name &&
       truthyS req.address) then (.reply 400 "Missing fields", s)
  else if (s.turf_owners.find? (fun o => o.email == req.email.getD "")).isSome then
    (.reply 400 "Email already registered", s)
  else if (s.turf_owners.find? (fun o => o.username == req.username.getD "")).isSome then
    (.reply 400 "Username already taken", s)
  else
    (.replyCreated 201 "Turf owner created successfully" (freshId s.counter),
     { s with
       turf_owners := s.turf_owners ++
        [{ id := freshId s.counter, username := req.username.getD "",
           email := req.email.getD "",
           password := generate_password_hash (req.password.getD ""),
           name := req.name.getD "", phone := req.phone.getD "",
           business_name := req.business_name.getD "", address := req.address.getD "" }],
       counter := s.counter + 1 })

/-- One state-bearing operation of the service, with its request data. -/
inductive Op
  | book (cu : CurrentUser) (req : BookReq)
  | listBookings (cu : CurrentUser)
  | cancel (cu : CurrentUser) (id : String)
  | addTurf (cu : CurrentUser) (req : TurfReq)
  | updateTurf (cu : CurrentUser) (id : String) (req : TurfReq)
  | deleteTurf (cu : CurrentUser) (id : String)
  | registerUser (req : UserRegisterReq)
  | registerOwner (req : OwnerRegisterReq)
deriving DecidableEq, Repr

/-- Sequential execution of one operation against the store. -/
def applyOp : Op → State → Response × State
  | .book cu req, s => book_turf cu req s
  | .listBookings cu, s => get_user_bookings cu s
  | .cancel cu id, s => cancel_booking cu id s
  | .addTurf cu req, s => add_turf cu req s
  | .updateTurf cu id req, s => update_turf cu id req s
  | .deleteTurf cu id, s => delete_turf cu id s
  | .registerUser req, s => user_register req s
  | .registerOwner req, s => owner_register req s

/-- One pair of the no-double-booking invariant: `a` and `b` may coexist
unless they live on the same turf, are both confirmed, and their half-open
intervals `[start, end)` intersect. -/
def noOverlapPair (a b : Booking) : Bool :=
  !(a.turf_id == b.turf_id && a.status.isConfirmed && b.status.isConfirmed &&
    decide (a.start_time < b.end_time) && decide (b.start_time < a.end_time))

/-- Pairwise check of `noOverlapPair` over a list of bookings. -/
def pairwiseOk : List Booking → Bool
  | [] => true
  | b :: l => l.all (noOverlapPair b) && pairwiseOk l

/-- Invariant I1 of the spec: for a given resource id, no two confirmed
bookings have overlapping half-open `[start, end)` intervals. -/
def I1 (bs : List Booking) : Prop := pairwiseOk bs = true

instance (bs : List Booking) : Decidable (I1 bs) := by
  unfold I1; infer_instance

/-! Concrete fixtures used by counterexamples and witnesses. -/

/-- A valid store id for the sample turf. -/
def tidA : String := "0123456789abcdef01234567"

/-- A valid store id for the first sample booking. -/
def bidA : String := "aaaaaaaaaaaaaaaaaaaaaaaa"

/-- A valid store id for the second sample booking. -/
def bidB : String := "bbbbbbbbbbbbbbbbbbbbbbbb"

/-- A sample available turf owned by owner `o1`, priced 100 per hour. -/
def turfA : Turf :=
  { id := tidA, owner_id := "o1", name := "Arena", location := "City", size := "5v5",
    amenities := [], price_per_hour := 100, availability := true, surface_type := "grass",
    capacity := 10, description := "" }

/-- A confirmed sample booking of `turfA` by user `u1` over `[0, 3600)`. -/
def bookingA : Booking :=
  { id := bidA, user_id := "u1", turf_id := tidA, start_time := 0, end_time := 3600,
    status := .confirmed, total_cost := 100, notes := "" }

/-- A cancelled sample booking of `turfA` by user `u1` over `[7200, 10800)`. -/
def bookingCancelled : Booking :=
  { id := bidB, user_id := "u1", turf_id := tidA, start_time := 7200, end_time := 10800,
    status := .cancelled, total_cost := 100, notes := "" }

/-- The empty store. -/
def stateEmpty : State :=
  { users := [], turf_owners := [], turfs := [], bookings := [], counter := 0 }

/-- Store holding `turfA` and no bookings. -/
def stateA : State :=
  { users := [], turf_owners := [], turfs := [turfA], bookings := [], counter := 1 }

/-- Store holding `turfA` and the confirmed `bookingA`. -/
def stateB : State :=
  { users := [], turf_owners := [], turfs := [turfA], bookings := [bookingA], counter := 2 }

/-- Store holding `turfA`, the confirmed `bookingA` and the cancelled
`bookingCancelled`. -/
def stateC : State :=
  { users := [], turf_owners := [], turfs := [turfA],
    bookings := [bookingA, bookingCancelled], counter := 3 }

/-- Booking request for `[0, 3600)` on `turfA`. -/
def raceReqA : BookReq :=
  { turf_id := some tidA, start_time := some "0", end_time := some "3600", notes := none }

/-- Booking request for `[1800, 5400)` on `turfA`, overlapping `raceReqA`. -/
def raceReqB : BookReq :=
  { turf_id := some tidA, start_time := some "1800", end_time := some "5400", notes := none }

/-- Booking request for `[3600, 7200)` on `turfA`, exactly adjacent to
`bookingA` which ends at 3600. -/
def adjReq : BookReq :=
  { turf_id := some tidA, start_time := some "3600", end_time := some "7200", notes := none }

/-- Booking request whose turf id is not a well-formed `ObjectId`. -/
def badIdReq : BookReq :=
  { turf_id := some "zzz", start_time := some "0", end_time := some "3600", notes := none }

/-- Turf-creation request with a negative price and all required fields
present and truthy. -/
def turfReqNeg : TurfReq :=
  { name := some "Arena", location := some "City", size := some "5v5", amenities := none,
    price_per_hour := some (-5), availability := none, surface_type := some "grass",
    capacity := some 10, description := none }

/-! Helper lemmas about the invariant machinery. -/

theorem pairwiseOk_append (l : List Booking) (b : Booking)
    (h : pairwiseOk l = true) (hb : ∀ a ∈ l, noOverlapPair a b = true) :
    pairwiseOk (l ++ [b]) = true := by
  induction l with
  | nil => simp [pairwiseOk]
  | cons a l ih =>
    simp only [pairwiseOk, Bool.and_eq_true, List.all_eq_true] at h
    obtain ⟨ha, hl⟩ := h
    simp only [List.cons_append, pairwiseOk, Bool.and_eq_true, List.all_eq_true]
    constructor
    · intro x hx
      rcases List.mem_append.mp hx with hx | hx
      · exact ha x hx
      · simp only [List.mem_singleton] at hx
        subst hx
        exact hb a (List.mem_cons_self a l)
    · exact ih hl (fun x hx => hb x (List.mem_cons_of_mem a hx))

theorem noOverlapPair_of_no_conflict (a b : Booking) (tid : String) (st en : Int)
    (hfa : ¬ (a.turf_id == tid && a.status.isConfirmed && mongoOverlap a st en) = true)
    (hb_turf : b.turf_id = tid) (hb_st : b.start_time = st) (hb_en : b.end_time = en) :
    noOverlapPair a b = true := by
  subst hb_turf hb_st hb_en
  cases hT : (a.turf_id == b.turf_id) with
  | false => simp [noOverlapPair, hT]
  | true =>
    cases hS : a.status.isConfirmed with
    | false => simp [noOverlapPair, hT, hS]
    | true =>
      cases hSb : b.status.isConfirmed with
      | false => simp [noOverlapPair, hT, hS, hSb]
      | true =>
        have hm : mongoOverlap a b.start_time b.end_time = false := by
          cases hmv : mongoOverlap a b.start_time b.end_time with
          | false => rfl
          | true => exact absurd (by simp [hT, hS, hmv]) hfa
        by_cases h1 : a.start_time < b.end_time
        · by_cases h2 : b.start_time < a.end_time
          · exfalso
            have hmt : mongoOverlap a b.start_time b.end_time = true := by
              simp only [mongoOverlap, Bool.or_eq_true, Bool.and_eq_true, decide_eq_true_eq]
              omega
            rw [hmt] at hm
            exact absurd hm (by decide)
          · simp [noOverlapPair, hT, hS, hSb, h2]
        · simp [noOverlapPair, hT, hS, hSb, h1]

theorem I1_insertBooking (s : State) (uid tid : String) (st en : Int) (c : ℚ) (nts : String)
    (h : I1 s.bookings) (hc : findConflict s tid st en = none) :
    I1 (insertBooking s uid tid st en c nts).bookings := by
  unfold I1 insertBooking at *
  apply pairwiseOk_append _ _ h
  intro a ha
  have hfa := List.find?_eq_none.mp hc a ha
  exact noOverlapPair_of_no_conflict a _ tid st en hfa rfl rfl rfl

theorem mem_updateFirst (p : α → Bool) (g : α → α) (b : α) :
    ∀ l : List α, b ∈ updateFirst p g l → b ∈ l ∨ ∃ a, a ∈ l ∧ b = g a := by
  intro l
  induction l with
  | nil => simp [updateFirst]
  | cons a l ih =>
    simp only [updateFirst]
    split
    · intro hb
      rcases List.mem_cons.mp hb with h | h
      · exact Or.inr ⟨a, List.mem_cons_self a l, h⟩
      · exact Or.inl (List.mem_cons_of_mem a h)
    · intro hb
      rcases List.mem_cons.mp hb with h | h
      · subst h
        exact Or.inl (List.mem_cons_self b l)
      · rcases ih h with h1 | ⟨x, hx, hbx⟩
        · exact Or.inl (List.mem_cons_of_mem a h1)
        · exact Or.inr ⟨x, List.mem_cons_of_mem a hx, hbx⟩

theorem noOverlapPair_cancel_left (a b : Booking) :
    noOverlapPair (cancelStatus a) b = true := by
  simp [noOverlapPair, cancelStatus, BookingStatus.isConfirmed]

theorem noOverlapPair_cancel_right (a b : Booking) :
    noOverlapPair a (cancelStatus b) = true := by
  simp [noOverlapPair, cancelStatus, BookingStatus.isConfirmed]

theorem pairwiseOk_updateFirst_cancel (p : Booking → Bool) :
    ∀ l, pairwiseOk l = true → pairwiseOk (updateFirst p cancelStatus l) = true := by
  intro l
  induction l with
  | nil => simp [updateFirst]
  | cons a l ih =>
    simp only [pairwiseOk, Bool.and_eq_true, List.all_eq_true]
    intro h
    obtain ⟨ha, hl⟩ := h
    simp only [updateFirst]
    split
    · simp only [pairwiseOk, Bool.and_eq_true, List.all_eq_true]
      exact ⟨fun x _ => noOverlapPair_cancel_left a x, hl⟩
    · simp only [pairwiseOk, Bool.and_eq_true, List.all_eq_true]
      refine ⟨fun x hx => ?_, ih hl⟩
      rcases mem_updateFirst p cancelStatus x l hx with h1 | ⟨y, hy, hxy⟩
      · exact ha x h1
      · subst hxy
        exact noOverlapPair_cancel_right a y

/-! Shape lemmas describing the state effect of each route handler. -/

theorem book_turf_state (cu : CurrentUser) (req : BookReq) (s : State) :
    (book_turf cu req s).2 = s ∨
    ∃ st en turf,
      st < en ∧
      s.turfs.find? (fun t => t.id == req.turf_id.getD "" && t.availability) = some turf ∧
      findConflict s (req.turf_id.getD "") st en = none ∧
      (book_turf cu req s).2 =
        insertBooking s cu.user_id (req.turf_id.getD "") st en
          (turf.price_per_hour * (((en - st : Int) : ℚ) / 3600)) (req.notes.getD "") := by
  unfold book_turf
  repeat' split
  all_goals first
    | exact Or.inl rfl
    | exact Or.inr ⟨_, _, _, by omega, by assumption, by assumption, rfl⟩

theorem get_user_bookings_state (cu : CurrentUser) (s : State) :
    (get_user_bookings cu s).2 = s := by
  unfold get_user_bookings
  repeat' split
  all_goals rfl

theorem cancel_booking_state (cu : CurrentUser) (id : String) (s : State) :
    (cancel_booking cu id s).2.bookings = s.bookings ∨
    (cancel_booking cu id s).2.bookings =
      updateFirst (fun x => x.id == id) cancelStatus s.bookings := by
  unfold cancel_booking
  repeat' split
  all_goals first
    | exact Or.inl rfl
    | exact Or.inr rfl

theorem add_turf_bookings (cu : CurrentUser) (req : TurfReq) (s : State) :
    (add_turf cu req s).2.bookings = s.bookings := by
  unfold add_turf
  repeat' split
  all_goals rfl

theorem update_turf_bookings (cu : CurrentUser) (id : String) (req : TurfReq) (s : State) :
    (update_turf cu id req s).2.bookings = s.bookings := by
  unfold update_turf
  repeat' split
  all_goals rfl

theorem delete_turf_bookings (cu : CurrentUser) (id : String) (s : State) :
    (delete_turf cu id s).2.bookings = s.bookings := by
  unfold delete_turf
  repeat' split
  all_goals rfl

theorem user_register_bookings (req : UserRegisterReq) (s : State) :
    (user_register req s).2.bookings = s.bookings := by
  unfold user_register
  repeat' split
  all_goals rfl

theorem owner_register_bookings (req : OwnerRegisterReq) (s : State) :
    (owner_register req s).2.bookings = s.bookings := by
  unfold owner_register
  repeat' split
  all_goals rfl

theorem cancel_booking_notfound (s : State) (u id : String)
    (hvalid : isValidObjectId id = true)
    (hnone : s.bookings.find? (fun b => b.id == id && b.user_id == u) = none) :
    cancel_booking ⟨UserType.user, u⟩ id s =
      (.reply 404 "Booking not found or unauthorized", s) := by
  unfold cancel_booking
  rw [if_neg (by simp), if_neg (by simp [hvalid])]
  simp only [hnone]

/-! Theorems settling the claims. -/

/-- C1: the spec demands that the overlap existence check and the booking
insert of `attemptBooking` be effectively atomic, so that two concurrent
attempts with overlapping intervals on the same resource cannot both succeed.
The code runs a plain `find_one` followed by a plain `insert_one` with no
lock, transaction or conditional write, so the interleaving check A, check B,
insert A, insert B of two overlapping requests on turf `tidA` makes both
checks pass (both `findConflict` calls on the initial state return `none`,
and each full sequential `book_turf` call from that state returns 201), after
which both inserts go through and the resulting store violates invariant I1.
This refutes the claimed atomicity guarantee. -/
theorem double_booking_race :
    (book_turf ⟨UserType.user, "u1"⟩ raceReqA stateA).1 =
      .replyCreated 201 "Booking created successfully" (freshId stateA.counter) ∧
    (book_turf ⟨UserType.user, "u2"⟩ raceReqB stateA).1 =
      .replyCreated 201 "Booking created successfully" (freshId stateA.counter) ∧
    findConflict stateA tidA 0 3600 = none ∧
    findConflict stateA tidA 1800 5400 = none ∧
    ¬ I1 (insertBooking (insertBooking stateA "u1" tidA 0 3600 100 "")
            "u2" tidA 1800 5400 100 "").bookings := by
  refine ⟨by decide, by decide, by decide, by decide, by decide⟩

/-- C2 counterexample: the claim states that the overlap predicate of
`book_turf` is equivalent to the half-open test and that adjacency is not an
overlap.  In fact the Mongo query uses inclusive bounds: against the
confirmed booking `[0, 3600)` the predicate accepts the exactly adjacent
request `[3600, 7200)` although the half-open test rejects it, and the
adjacent booking attempt is rejected with `Time slot unavailable` instead of
succeeding. -/
theorem adjacency_counterexample :
    mongoOverlap bookingA 3600 7200 = true ∧
    specHalfOpenOverlap bookingA.start_time bookingA.end_time 3600 7200 = false ∧
    (book_turf ⟨UserType.user, "u2"⟩ adjReq stateB).1 = .reply 409 "Time slot unavailable" := by
  refine ⟨by decide, by decide, by decide⟩

/-- C2 amended: for valid intervals the overlap predicate of `book_turf` is
equivalent to the closed-interval test `existing.start ≤ end ∧ existing.end ≥
start`; in particular a booking ending exactly at the requested start counts
as an overlap. -/
theorem overlap_closed_equiv (b : Booking) (st en : Int)
    (hb : b.start_time < b.end_time) (h : st < en) :
    (mongoOverlap b st en = true ↔ (b.start_time ≤ en ∧ st ≤ b.end_time)) ∧
    (b.end_time = st → mongoOverlap b st en = true) := by
  unfold mongoOverlap
  constructor
  · simp only [Bool.or_eq_true, Bool.and_eq_true, decide_eq_true_eq]
    omega
  · intro he
    simp only [Bool.or_eq_true, Bool.and_eq_true, decide_eq_true_eq]
    omega

/-- Witness for `overlap_closed_equiv` at the concrete booking `[0, 3600)`
and the concrete interval `[3600, 7200)`. -/
theorem overlap_closed_equiv_witness :
    (mongoOverlap bookingA 3600 7200 = true ↔
      (bookingA.start_time ≤ 7200 ∧ 3600 ≤ bookingA.end_time)) ∧
    (bookingA.end_time = 3600 → mongoOverlap bookingA 3600 7200 = true) :=
  overlap_closed_equiv bookingA 3600 7200 (by decide) (by decide)

/-- C3: invariant I1 (no two confirmed bookings of one resource with
overlapping half-open intervals) is preserved by every operation executed
sequentially: booking, booking list, cancellation, turf creation, turf
update, turf deletion and both registrations. -/
theorem invariant_I1_preserved (op : Op) (s : State) (h : I1 s.bookings) :
    I1 ((applyOp op s).2.bookings) := by
  cases op with
  | book cu req =>
    rcases book_turf_state cu req s with heq | ⟨st, en, turf, hlt, hfind, hconf, heq⟩
    · show I1 ((book_turf cu req s).2.bookings)
      rw [heq]; exact h
    · show I1 ((book_turf cu req s).2.bookings)
      rw [heq]
      exact I1_insertBooking s cu.user_id (req.turf_id.getD "") st en _ (req.notes.getD "")
        h hconf
  | listBookings cu =>
    show I1 ((get_user_bookings cu s).2.bookings)
    rw [get_user_bookings_state]; exact h
  | cancel cu id =>
    show I1 ((cancel_booking cu id s).2.bookings)
    rcases cancel_booking_state cu id s with heq | heq
    · rw [heq]; exact h
    · rw [heq]; exact pairwiseOk_updateFirst_cancel _ s.bookings h
  | addTurf cu req =>
    show I1 ((add_turf cu req s).2.bookings)
    rw [add_turf_bookings]; exact h
  | updateTurf cu id req =>
    show I1 ((update_turf cu id req s).2.bookings)
    rw [update_turf_bookings]; exact h
  | deleteTurf cu id =>
    show I1 ((delete_turf cu id s).2.bookings)
    rw [delete_turf_bookings]; exact h
  | registerUser req =>
    show I1 ((user_register req s).2.bookings)
    rw [user_register_bookings]; exact h
  | registerOwner req =>
    show I1 ((owner_register req s).2.bookings)
    rw [owner_register_bookings]; exact h

/-- Witness for `invariant_I1_preserved`: cancelling `bookingA` in `stateB`,
whose booking list satisfies I1, yields a store that still satisfies I1. -/
theorem invariant_I1_preserved_witness :
    I1 stateB.bookings ∧
      I1 ((applyOp (Op.cancel ⟨UserType.user, "u1"⟩ bidA) stateB).2.bookings) :=
  ⟨by decide, invariant_I1_preserved (Op.cancel ⟨UserType.user, "u1"⟩ bidA) stateB (by decide)⟩

/-- C4: whenever `book_turf` inserts a booking, the stored `total_cost`
equals the current price per hour of the booked turf times the duration of
the interval in hours (duration positive, fractional hours exact); and
`update_turf` never changes the bookings collection, so a later price update
leaves every existing booking's `total_cost` unchanged. -/
theorem total_cost_fixed_at_creation :
    (∀ (cu : CurrentUser) (req : BookReq) (s : State),
      (book_turf cu req s).2.bookings = s.bookings ∨
      ∃ b turf, (book_turf cu req s).2.bookings = s.bookings ++ [b] ∧
        s.turfs.find? (fun t => t.id == b.turf_id && t.availability) = some turf ∧
        b.status = BookingStatus.confirmed ∧
        b.start_time < b.end_time ∧
        b.total_cost =
          turf.price_per_hour * (((b.end_time - b.start_time : Int) : ℚ) / 3600)) ∧
    (∀ (cu : CurrentUser) (id : String) (req : TurfReq) (s : State),
      (update_turf cu id req s).2.bookings = s.bookings) := by
  constructor
  · intro cu req s
    rcases book_turf_state cu req s with heq | ⟨st, en, turf, hlt, hfind, hconf, heq⟩
    · exact Or.inl (by rw [heq])
    · right
      rw [heq]
      exact ⟨_, turf, rfl, hfind, rfl, hlt, rfl⟩
  · exact update_turf_bookings

/-- C5: for a turf that exists and is owned by the requesting owner, with a
well-formed id, `delete_turf` rejects with the active-bookings conflict
exactly when some confirmed booking for that turf exists, and otherwise
succeeds and removes the turf. -/
theorem delete_turf_guard (cu : CurrentUser) (id : String) (s : State) (turf : Turf)
    (hrole : cu.user_type = UserType.owner)
    (hvalid : isValidObjectId id = true)
    (hfind : s.turfs.find? (fun t => t.id == id && t.owner_id == cu.user_id) = some turf) :
    delete_turf cu id s =
      if (s.bookings.find? (fun b => b.turf_id == id && b.status.isConfirmed)).isSome
      then (.reply 400 "Cannot delete turf with active bookings", s)
      else (.reply 200 "Turf deleted successfully",
            { s with turfs := deleteFirst (fun t => t.id == id) s.turfs }) := by
  unfold delete_turf
  rw [if_neg (by simp [hrole]), if_neg (by simp [hvalid])]
  simp only [hfind]
  cases hb : s.bookings.find? (fun b => b.turf_id == id && b.status.isConfirmed) with
  | none => simp [hb]
  | some b => simp [hb]

/-- Witness for `delete_turf_guard`: deleting `turfA` while the confirmed
`bookingA` exists is rejected with the active-bookings conflict. -/
theorem delete_turf_guard_witness :
    delete_turf ⟨UserType.owner, "o1"⟩ tidA stateB =
      (.reply 400 "Cannot delete turf with active bookings", stateB) :=
  (delete_turf_guard ⟨UserType.owner, "o1"⟩ tidA stateB turfA rfl (by decide)
    (by decide)).trans (by decide)

/-- C6: for the requesting customer `u`, cancelling a booking id that exists
for no booking at all and cancelling a booking id owned by a different
customer return the identical response (`404`, `Booking not found or
unauthorized`) and leave the store unchanged. -/
theorem cancel_opacity (s : State) (u id1 id2 : String)
    (hv1 : isValidObjectId id1 = true) (hv2 : isValidObjectId id2 = true)
    (h1 : ∀ b ∈ s.bookings, b.id ≠ id1)
    (h2 : ∀ b ∈ s.bookings, b.id = id2 → b.user_id ≠ u) :
    cancel_booking ⟨UserType.user, u⟩ id1 s = cancel_booking ⟨UserType.user, u⟩ id2 s ∧
    cancel_booking ⟨UserType.user, u⟩ id1 s =
      (.reply 404 "Booking not found or unauthorized", s) := by
  have hn1 : s.bookings.find? (fun b => b.id == id1 && b.user_id == u) = none := by
    rw [List.find?_eq_none]
    intro b hb
    simp only [Bool.and_eq_true, beq_iff_eq, not_and]
    intro hbid
    exact absurd hbid (h1 b hb)
  have hn2 : s.bookings.find? (fun b => b.id == id2 && b.user_id == u) = none := by
    rw [List.find?_eq_none]
    intro b hb
    simp only [Bool.and_eq_true, beq_iff_eq, not_and]
    intro hbid
    exact h2 b hb hbid
  refine ⟨?_, cancel_booking_notfound s u id1 hv1 hn1⟩
  rw [cancel_booking_notfound s u id1 hv1 hn1, cancel_booking_notfound s u id2 hv2 hn2]

/-- Witness for `cancel_opacity`: in `stateB`, user `u2` cancelling the
nonexistent id `bidB` and cancelling `bidA` (owned by `u1`) get the identical
not-found response. -/
theorem cancel_opacity_witness :
    (cancel_booking ⟨UserType.user, "u2"⟩ bidB stateB =
      cancel_booking ⟨UserType.user, "u2"⟩ bidA stateB) ∧
    cancel_booking ⟨UserType.user, "u2"⟩ bidB stateB =
      (.reply 404 "Booking not found or unauthorized", stateB) :=
  cancel_opacity stateB "u2" bidB bidA (by decide) (by decide) (by decide) (by decide)

/-- C7: cancelling a booking that is already cancelled, by its owning
customer, returns the already-cancelled rejection and returns the store
completely unchanged. -/
theorem cancel_idempotent_reject (s : State) (u id : String) (b : Booking)
    (hvalid : isValidObjectId id = true)
    (hfind : s.bookings.find? (fun x => x.id == id && x.user_id == u) = some b)
    (hst : b.status = BookingStatus.cancelled) :
    cancel_booking ⟨UserType.user, u⟩ id s =
      (.reply 400 "Booking already cancelled", s) := by
  unfold cancel_booking
  rw [if_neg (by simp), if_neg (by simp [hvalid])]
  simp only [hfind]
  rw [if_pos hst]

/-- Witness for `cancel_idempotent_reject`: user `u1` cancelling the already
cancelled `bookingCancelled` in `stateC` gets the rejection and an unchanged
store. -/
theorem cancel_idempotent_reject_witness :
    cancel_booking ⟨UserType.user, "u1"⟩ bidB stateC =
      (.reply 400 "Booking already cancelled", stateC) :=
  cancel_idempotent_reject stateC "u1" bidB bookingCancelled (by decide) (by decide) rfl

/-- C8: the claim states that every authenticated request with malformed
input gets a reported error with a stable code and never an unhandled
exception.  But a booking request whose turf id is not a well-formed
`ObjectId` makes `book_turf` raise `bson.errors.InvalidId` out of the
handler (HTTP 500) instead of returning any reported error. -/
theorem book_turf_invalid_objectid_raises :
    book_turf ⟨UserType.user, "u1"⟩ badIdReq stateA =
      (.raised "bson.errors.InvalidId", stateA) := by decide

/-- C9 counterexample: the claim states that `listForCustomer` returns the
empty sequence when the customer has no bookings; the code instead returns
the 404 error `No bookings found` and not the empty list response. -/
theorem list_bookings_empty_counterexample :
    get_user_bookings ⟨UserType.user, "u1"⟩ stateA = (.reply 404 "No bookings found", stateA) ∧
    get_user_bookings ⟨UserType.user, "u1"⟩ stateA ≠ (.replyBookings 200 [], stateA) := by
  refine ⟨by decide, by decide⟩

/-- C9 amended: `get_user_bookings` returns exactly the bookings of the
requesting customer, of any status, in insertion order (a subsequence of the
stored list, filtered by the customer id), when at least one exists; when the
customer has none it returns the 404 error `No bookings found` instead of an
empty sequence.  The store is unchanged either way. -/
theorem get_user_bookings_spec (u : String) (s : State) :
    get_user_bookings ⟨UserType.user, u⟩ s =
      ((if (s.bookings.filter (fun b => b.user_id == u)).isEmpty
        then Response.reply 404 "No bookings found"
        else Response.replyBookings 200 (s.bookings.filter (fun b => b.user_id == u))), s) ∧
    List.Sublist (s.bookings.filter (fun b => b.user_id == u)) s.bookings ∧
    (s.bookings.filter (fun b => b.user_id == u)).all (fun b => b.user_id == u) = true := by
  refine ⟨?_, List.filter_sublist _, ?_⟩
  · unfold get_user_bookings
    rw [if_neg (by simp)]
    dsimp only
    split <;> rfl
  · rw [List.all_eq_true]
    intro b hb
    exact (List.mem_filter.mp hb).2

/-- C10 counterexample: the claim states that turf creation validates price
strictly greater than zero and persists only then; the code accepts a
negative price (`-5`) and persists the turf. -/
theorem negative_price_accepted :
    (add_turf ⟨UserType.owner, "o1"⟩ turfReqNeg stateEmpty).1 =
      .replyCreated 201 "Turf added successfully" (freshId 0) ∧
    (add_turf ⟨UserType.owner, "o1"⟩ turfReqNeg stateEmpty).2.turfs.map Turf.price_per_hour =
      [(-5 : ℚ)] := by
  refine ⟨by decide, by decide⟩

/-- C10 amended: `add_turf` validates only Python truthiness of the required
fields: any present nonzero price (negative included) passes and the turf is
persisted with that price, while a price of exactly `0` is rejected as
`Missing fields`; there is no strict-positivity check. -/
theorem add_turf_validation_amended (o : String) (req : TurfReq) (s : State) (p : ℚ)
    (hn : truthyS req.name = true) (hl : truthyS req.location = true)
    (hsz : truthyS req.size = true) (hsf : truthyS req.surface_type = true)
    (hcap : truthyI req.capacity = true) :
    (req.price_per_hour = some p → p ≠ 0 →
      add_turf ⟨UserType.owner, o⟩ req s =
        (.replyCreated 201 "Turf added successfully" (freshId s.counter),
         { s with
           turfs := s.turfs ++ [mkTurf o req s.counter],
           counter := s.counter + 1 })) ∧
    (req.price_per_hour = some 0 →
      add_turf ⟨UserType.owner, o⟩ req s = (.reply 400 "Missing fields", s)) := by
  constructor
  · intro hp hp0
    unfold add_turf
    rw [if_neg (by simp), if_neg (by simp [hn, hl, hsz, hsf, hcap, hp, truthyQ, hp0])]
  · intro hp
    unfold add_turf
    rw [if_neg (by simp), if_pos (by simp [hp, truthyQ])]

/-- Witness for `add_turf_validation_amended`: the negative-price request is
accepted and persisted. -/
theorem add_turf_validation_amended_witness :
    add_turf ⟨UserType.owner, "o1"⟩ turfReqNeg stateEmpty =
      (.replyCreated 201 "Turf added successfully" (freshId stateEmpty.counter),
       { stateEmpty with
         turfs := stateEmpty.turfs ++ [mkTurf "o1" turfReqNeg stateEmpty.counter],
         counter := stateEmpty.counter + 1 }) :=
  (add_turf_validation_amended "o1" turfReqNeg stateEmpty (-5) (by decide) (by decide)
    (by decide) (by decide) (by decide)).1 rfl (by decide)

end TurfBooking
